import Mathlib

/-!
Shallow embedding of the image-metadata extractor in
src/worker/src/services/imageProcessor.ts (class ImageProcessor).

Buffers are finite byte sequences (List Nat, each entry read through an
8-bit mask, matching Uint8Array element semantics).  JavaScript reads at
an out-of-range index yield undefined, which behaves as the byte value 0
in every context this code uses it (strict equality against non-zero
constants, bitwise arithmetic, String.fromCharCode); the embedding reads
such positions as 0.  JavaScript bitwise operators work on signed 32-bit
integers, so a 4-byte big-endian read built from shifts and ors produces
a value in [-2^31, 2^31); toInt32 models that.  The two scanning loops
(JPEG marker scan, AVIF box walk) are modelled as fuel-indexed step
functions returning Option: some r means the loop finished with result r
within the given number of iterations, none means it was still running.
-/

namespace CattoPic

/-- Byte sequences handed to the processor (contents of a Uint8Array). -/
abbrev ImageBuffer := List Nat

/-- Read the byte at (possibly negative) index i: in-range reads give the
stored 8-bit value, out-of-range reads behave as 0. -/
def readByte (bs : ImageBuffer) (i : Int) : Nat :=
  if 0 ≤ i then bs.getD i.toNat 0 % 256 else 0

/-- Interpretation of a nonnegative integer as a JavaScript signed 32-bit
value, the result type of the bitwise shift-and-or compositions. -/
def toInt32 (v : Nat) : Int :=
  if v % 4294967296 < 2147483648 then ((v % 4294967296 : Nat) : Int)
  else ((v % 4294967296 : Nat) : Int) - 4294967296

/-- Big-endian 32-bit read (bytes[i] << 24) | (bytes[i+1] << 16) |
(bytes[i+2] << 8) | bytes[i+3], with JavaScript int32 semantics: the
shifted bytes occupy disjoint bit ranges below 2^32, and the signed
reinterpretation happens once on the combined word. -/
def be32 (bs : ImageBuffer) (i : Int) : Int :=
  toInt32 ((readByte bs i <<< 24) ||| (readByte bs (i + 1) <<< 16) |||
    (readByte bs (i + 2) <<< 8) ||| readByte bs (i + 3))

/-- Big-endian 16-bit read (bytes[i] << 8) | bytes[i+1]. -/
def be16 (bs : ImageBuffer) (i : Int) : Nat :=
  (readByte bs i <<< 8) ||| readByte bs (i + 1)

/-- Little-endian 16-bit read bytes[i] | (bytes[i+1] << 8). -/
def le16 (bs : ImageBuffer) (i : Int) : Nat :=
  readByte bs i ||| (readByte bs (i + 1) <<< 8)

/-- JPEG signature test: bytes[0..2] = FF D8 FF. -/
def jpegSig (b : ImageBuffer) : Bool :=
  readByte b 0 == 0xFF && readByte b 1 == 0xD8 && readByte b 2 == 0xFF

/-- PNG signature test: bytes[0..3] = 89 50 4E 47. -/
def pngSig (b : ImageBuffer) : Bool :=
  readByte b 0 == 0x89 && readByte b 1 == 0x50 && readByte b 2 == 0x4E &&
    readByte b 3 == 0x47

/-- GIF signature test: bytes[0..3] = 47 49 46 38. -/
def gifSig (b : ImageBuffer) : Bool :=
  readByte b 0 == 0x47 && readByte b 1 == 0x49 && readByte b 2 == 0x46 &&
    readByte b 3 == 0x38

/-- WebP signature test: bytes[0..3] = RIFF and bytes[8..11] = WEBP. -/
def webpSig (b : ImageBuffer) : Bool :=
  readByte b 0 == 0x52 && readByte b 1 == 0x49 && readByte b 2 == 0x46 &&
    readByte b 3 == 0x46 && readByte b 8 == 0x57 && readByte b 9 == 0x45 &&
    readByte b 10 == 0x42 && readByte b 11 == 0x50

/-- AVIF signature test: bytes[4..7] = ftyp and the brand at bytes[8..11]
is avif (61 76 69 66) or avis (61 76 69 73). -/
def avifSig (b : ImageBuffer) : Bool :=
  readByte b 4 == 0x66 && readByte b 5 == 0x74 && readByte b 6 == 0x79 &&
    readByte b 7 == 0x70 &&
    ((readByte b 8 == 0x61 && readByte b 9 == 0x76 && readByte b 10 == 0x69 &&
        readByte b 11 == 0x66) ||
      (readByte b 8 == 0x61 && readByte b 9 == 0x76 && readByte b 10 == 0x69 &&
        readByte b 11 == 0x73))

/-- Format detector: slices the first 12 bytes and checks the five
magic-byte signatures in order, returning the tag of the first match. -/
def detectFormat (data : ImageBuffer) : String :=
  let bytes := data.take 12
  if jpegSig bytes then "jpeg"
  else if pngSig bytes then "png"
  else if gifSig bytes then "gif"
  else if webpSig bytes then "webp"
  else if avifSig bytes then "avif"
  else "unknown"

/-- Result of a dimension reader: a width and a height, as the JavaScript
numbers the code computes (signed, because of int32 bitwise semantics). -/
structure Dimensions where
  width : Int
  height : Int
deriving DecidableEq, Repr

/-- PNG reader: big-endian 32-bit reads at offsets 16 and 20. -/
def getPngDimensions (bs : ImageBuffer) : Dimensions :=
  ⟨be32 bs 16, be32 bs 20⟩

/-- GIF reader: little-endian 16-bit reads at offsets 6 and 8. -/
def getGifDimensions (bs : ImageBuffer) : Dimensions :=
  ⟨(le16 bs 6 : Int), (le16 bs 8 : Int)⟩

/-- WebP reader: dispatch on the 4-byte chunk tag at offset 12
(VP8X, VP8L, VP8 followed by a space), falling back to 1920 x 1080. -/
def getWebpDimensions (bs : ImageBuffer) : Dimensions :=
  if readByte bs 12 == 0x56 && readByte bs 13 == 0x50 &&
      readByte bs 14 == 0x38 && readByte bs 15 == 0x58 then
    ⟨((readByte bs 24 ||| (readByte bs 25 <<< 8) ||| (readByte bs 26 <<< 16)) + 1 : Nat),
      ((readByte bs 27 ||| (readByte bs 28 <<< 8) ||| (readByte bs 29 <<< 16)) + 1 : Nat)⟩
  else if readByte bs 12 == 0x56 && readByte bs 13 == 0x50 &&
      readByte bs 14 == 0x38 && readByte bs 15 == 0x4C then
    let b0 := readByte bs 21
    let b1 := readByte bs 22
    let b2 := readByte bs 23
    let b3 := readByte bs 24
    ⟨(((b0 ||| (b1 <<< 8)) &&& 0x3FFF) + 1 : Nat),
      ((((b1 >>> 6) ||| (b2 <<< 2) ||| (b3 <<< 10)) &&& 0x3FFF) + 1 : Nat)⟩
  else if readByte bs 12 == 0x56 && readByte bs 13 == 0x50 &&
      readByte bs 14 == 0x38 && readByte bs 15 == 0x20 then
    ⟨((le16 bs 26) &&& 0x3FFF : Nat), ((le16 bs 28) &&& 0x3FFF : Nat)⟩
  else ⟨1920, 1080⟩

/-- JPEG marker scan, one iteration per unit of fuel.  The source loop
runs while i < bytes.length: a non-FF byte advances one position; at an
FF it reads the marker byte, returns the SOF dimensions for a
start-of-frame marker (0xC0..0xCF except 0xC4, 0xC8, 0xCC), and
otherwise skips 2 + the big-endian 16-bit segment length.  some r means
the loop finished with r; none means the fuel ran out first (the loop
always advances, so bytes.length + 1 units of fuel suffice). -/
def jpegScan (bs : ImageBuffer) : Nat → Nat → Option Dimensions
  | 0, _ => none
  | fuel + 1, i =>
    if i < bs.length then
      if readByte bs i ≠ 0xFF then jpegScan bs fuel (i + 1)
      else
        let marker := readByte bs (i + 1)
        if 0xC0 ≤ marker ∧ marker ≤ 0xCF ∧ marker ≠ 0xC4 ∧ marker ≠ 0xC8 ∧
            marker ≠ 0xCC then
          some ⟨(be16 bs (i + 7) : Int), (be16 bs (i + 5) : Int)⟩
        else jpegScan bs fuel (i + 2 + be16 bs (i + 2))
    else some ⟨1920, 1080⟩

/-- JPEG reader: run the marker scan from offset 2 with enough fuel for
the whole buffer (proved sufficient in jpegScan_isSome below). -/
def getJpegDimensions (bs : ImageBuffer) : Dimensions :=
  (jpegScan bs (bs.length + 1) 2).getD ⟨1920, 1080⟩

/-- Test of the 4-byte box type at box offset o against type characters
a b c d (the source builds the type with String.fromCharCode and
compares with string literals). -/
def boxTypeIs (bs : ImageBuffer) (o : Int) (a b c d : Nat) : Bool :=
  readByte bs (o + 4) == a && readByte bs (o + 5) == b &&
    readByte bs (o + 6) == c && readByte bs (o + 7) == d

/-- AVIF ISO-BMFF box walk, one iteration per unit of fuel.  The source
loop runs while offset < bytes.length - 8: it reads a signed 32-bit
big-endian box size and the 4-byte box type, stops with the fallback on
size 0, returns the ispe payload (32-bit reads at offset+12 and
offset+16) on an ispe box, descends into meta (offset + 12) and
iprp/ipco (offset + 8), and otherwise adds the box size to the offset —
which moves the cursor backwards when the size is negative, so the walk
does not terminate on every input.  some r means the loop finished with
r; none means the fuel ran out first. -/
def avifScan (bs : ImageBuffer) : Nat → Int → Option Dimensions
  | 0, _ => none
  | fuel + 1, offset =>
    if offset < (bs.length : Int) - 8 then
      let boxSize := be32 bs offset
      if boxSize = 0 then some ⟨1920, 1080⟩
      else if boxTypeIs bs offset 0x69 0x73 0x70 0x65 then
        some ⟨be32 bs (offset + 12), be32 bs (offset + 16)⟩
      else if boxTypeIs bs offset 0x6D 0x65 0x74 0x61 then
        avifScan bs fuel (offset + 12)
      else if boxTypeIs bs offset 0x69 0x70 0x72 0x70 ||
          boxTypeIs bs offset 0x69 0x70 0x63 0x6F then
        avifScan bs fuel (offset + 8)
      else avifScan bs fuel (offset + boxSize)
    else some ⟨1920, 1080⟩

/-- AVIF reader: the box walk from offset 0, indexed by fuel because the
source loop can diverge. -/
def getAvifDimensions (bs : ImageBuffer) (fuel : Nat) : Option Dimensions :=
  avifScan bs fuel 0

/-- Dimension dispatcher: detect the format and run its reader; unknown
formats get the fallback.  The fuel only feeds the AVIF walk. -/
def getImageDimensions (bs : ImageBuffer) (fuel : Nat) : Option Dimensions :=
  match detectFormat bs with
  | "png" => some (getPngDimensions bs)
  | "jpeg" => some (getJpegDimensions bs)
  | "gif" => some (getGifDimensions bs)
  | "webp" => some (getWebpDimensions bs)
  | "avif" => getAvifDimensions bs fuel
  | _ => some ⟨1920, 1080⟩

/-- Orientation derived from dimensions: landscape when width ≥ height. -/
def detectOrientation (width height : Int) : String :=
  if width ≥ height then "landscape" else "portrait"

/-- Extension lookup: the six known keys map through the table, any
other key is returned unchanged. -/
def getExtension (format : String) : String :=
  if format = "jpeg" then "jpg"
  else if format = "jpg" then "jpg"
  else if format = "png" then "png"
  else if format = "gif" then "gif"
  else if format = "webp" then "webp"
  else if format = "avif" then "avif"
  else format

/-- Modelled from the spec: the format-detection rule list as the spec
states it — the first matching signature, checked in the order JPEG,
PNG, GIF, WebP, AVIF over the byte positions the spec names, with
unknown when no rule matches.  Used to compare against detectFormat. -/
def detectFormatSpec (b : ImageBuffer) : String :=
  if readByte b 0 == 0xFF && readByte b 1 == 0xD8 && readByte b 2 == 0xFF then
    "jpeg"
  else if readByte b 0 == 0x89 && readByte b 1 == 0x50 && readByte b 2 == 0x4E &&
      readByte b 3 == 0x47 then "png"
  else if readByte b 0 == 0x47 && readByte b 1 == 0x49 && readByte b 2 == 0x46 &&
      readByte b 3 == 0x38 then "gif"
  else if readByte b 0 == 0x52 && readByte b 1 == 0x49 && readByte b 2 == 0x46 &&
      readByte b 3 == 0x46 && readByte b 8 == 0x57 && readByte b 9 == 0x45 &&
      readByte b 10 == 0x42 && readByte b 11 == 0x50 then "webp"
  else if readByte b 4 == 0x66 && readByte b 5 == 0x74 && readByte b 6 == 0x79 &&
      readByte b 7 == 0x70 &&
      ((readByte b 8 == 0x61 && readByte b 9 == 0x76 && readByte b 10 == 0x69 &&
          readByte b 11 == 0x66) ||
        (readByte b 8 == 0x61 && readByte b 9 == 0x76 && readByte b 10 == 0x69 &&
          readByte b 11 == 0x73)) then "avif"
  else "unknown"

/-- Modelled from the spec: the WebP dimension rules as the spec writes
them — dispatch on the 4-byte chunk tag at offset 12, the VP8X 24-bit
little-endian fields plus one, the VP8L packed 14-bit fields, the VP8
16-bit fields masked with 0x3FFF, and the fallback for any other tag.
Used to compare against getWebpDimensions. -/
def webpDimensionsSpec (bs : ImageBuffer) : Dimensions :=
  let tag := (readByte bs 12, readByte bs 13, readByte bs 14, readByte bs 15)
  if tag = (0x56, 0x50, 0x38, 0x58) then
    ⟨((readByte bs 24 ||| (readByte bs 25 <<< 8) ||| (readByte bs 26 <<< 16)) + 1 : Nat),
      ((readByte bs 27 ||| (readByte bs 28 <<< 8) ||| (readByte bs 29 <<< 16)) + 1 : Nat)⟩
  else if tag = (0x56, 0x50, 0x38, 0x4C) then
    let b0 := readByte bs 21
    let b1 := readByte bs 22
    let b2 := readByte bs 23
    let b3 := readByte bs 24
    ⟨(((b0 ||| (b1 <<< 8)) &&& 0x3FFF) + 1 : Nat),
      ((((b1 >>> 6) ||| (b2 <<< 2) ||| (b3 <<< 10)) &&& 0x3FFF) + 1 : Nat)⟩
  else if tag = (0x56, 0x50, 0x38, 0x20) then
    ⟨((readByte bs 26 ||| (readByte bs 27 <<< 8)) &&& 0x3FFF : Nat),
      ((readByte bs 28 ||| (readByte bs 29 <<< 8)) &&& 0x3FFF : Nat)⟩
  else ⟨1920, 1080⟩

/-- JPEG example: SOI, an APP0 segment of declared length 16, then an
SOF0 marker whose payload encodes height 600 and width 800. -/
def jpegSofExample : ImageBuffer :=
  [0xFF, 0xD8, 0xFF, 0xE0, 0x00, 0x10, 0, 0, 0, 0, 0, 0, 0, 0, 0, 0, 0, 0,
   0, 0, 0xFF, 0xC0, 0x00, 0x11, 0x08, 0x02, 0x58, 0x03, 0x20]

/-- JPEG example with an APP0 segment and no SOF marker. -/
def jpegNoSofExample : ImageBuffer := [0xFF, 0xD8, 0xFF, 0xE0, 0x00, 0x02]

/-- AVIF example: nested meta, iprp, ipco boxes around an ispe box whose
payload encodes width 1200 and height 800. -/
def avifIspeExample : ImageBuffer :=
  [0, 0, 0, 48, 0x6D, 0x65, 0x74, 0x61, 0, 0, 0, 0,
   0, 0, 0, 36, 0x69, 0x70, 0x72, 0x70,
   0, 0, 0, 28, 0x69, 0x70, 0x63, 0x6F,
   0, 0, 0, 20, 0x69, 0x73, 0x70, 0x65, 0, 0, 0, 0,
   0, 0, 0x04, 0xB0, 0, 0, 0x03, 0x20]

/-- The same AVIF box structure with the ispe box replaced by a free
box, so the walk finds no dimensions. -/
def avifNoIspeExample : ImageBuffer :=
  [0, 0, 0, 48, 0x6D, 0x65, 0x74, 0x61, 0, 0, 0, 0,
   0, 0, 0, 36, 0x69, 0x70, 0x72, 0x70,
   0, 0, 0, 28, 0x69, 0x70, 0x63, 0x6F,
   0, 0, 0, 20, 0x66, 0x72, 0x65, 0x65, 0, 0, 0, 0,
   0, 0, 0x04, 0xB0, 0, 0, 0x03, 0x20]

/-- Buffer detected as AVIF on which the box walk never terminates: the
ftyp box at offset 0 has size 16, and the box at offset 16 has the
signed 32-bit size -16 (FF FF FF F0), so the cursor jumps from 0 to 16
and back to 0 forever. -/
def avifLoopExample : ImageBuffer :=
  [0, 0, 0, 16, 0x66, 0x74, 0x79, 0x70, 0x61, 0x76, 0x69, 0x66,
   0, 0, 0, 0, 0xFF, 0xFF, 0xFF, 0xF0, 0x61, 0x61, 0x61, 0x61, 0]

/-- PNG-magic buffer whose width field starts with the byte 0x80, so
the signed 32-bit read produces a negative width. -/
def pngHighBitExample : ImageBuffer :=
  [0x89, 0x50, 0x4E, 0x47, 0, 0, 0, 0, 0, 0, 0, 0, 0, 0, 0, 0,
   0x80, 0, 0, 0, 0, 0, 0, 1]

/-- PNG-magic buffer truncated before the dimension fields. -/
def pngTruncExample : ImageBuffer := [0x89, 0x50, 0x4E, 0x47, 0, 0, 0, 0]

/-- WebP lossless buffer whose packed 14-bit fields encode width 100 and
height 50 (b0 = 0x63, b1 = 0x40, b2 = 0x0C, b3 = 0x00). -/
def vp8lExample : ImageBuffer :=
  [0x52, 0x49, 0x46, 0x46, 0, 0, 0, 0, 0x57, 0x45, 0x42, 0x50,
   0x56, 0x50, 0x38, 0x4C, 0, 0, 0, 0, 0x2F, 0x63, 0x40, 0x0C, 0x00]

/-- Buffer satisfying the JPEG signature and the AVIF signature at the
same time: FF D8 FF at offset 0, ftyp at offset 4, brand avif. -/
def jpegAvifOverlapExample : ImageBuffer :=
  [0xFF, 0xD8, 0xFF, 0x00, 0x66, 0x74, 0x79, 0x70, 0x61, 0x76, 0x69, 0x66]

/-- Reads past the end of the buffer give 0. -/
theorem readByte_oob (bs : ImageBuffer) (i : Int) (h : (bs.length : Int) ≤ i) :
    readByte bs i = 0 := by
  have h0 : (0 : Int) ≤ i := le_trans (Int.ofNat_nonneg _) h
  simp only [readByte, if_pos h0]
  rw [List.getD_eq_default]
  · omega

/-- Reads below index 12 are unchanged by slicing to the first 12 bytes. -/
theorem readByte_take (bs : ImageBuffer) (i : Int) (h : i < 12) :
    readByte (bs.take 12) i = readByte bs i := by
  by_cases h0 : (0 : Int) ≤ i
  · simp only [readByte, if_pos h0, List.getD_eq_getElem?_getD, List.getElem?_take]
    rw [if_pos (by omega)]
  · simp only [readByte, if_neg h0]

/-- The JPEG signature only looks at the first 12 bytes. -/
theorem jpegSig_take (bs : ImageBuffer) : jpegSig (bs.take 12) = jpegSig bs := by
  unfold jpegSig
  rw [readByte_take bs 0 (by decide), readByte_take bs 1 (by decide),
    readByte_take bs 2 (by decide)]

/-- The PNG signature only looks at the first 12 bytes. -/
theorem pngSig_take (bs : ImageBuffer) : pngSig (bs.take 12) = pngSig bs := by
  unfold pngSig
  rw [readByte_take bs 0 (by decide), readByte_take bs 1 (by decide),
    readByte_take bs 2 (by decide), readByte_take bs 3 (by decide)]

/-- The GIF signature only looks at the first 12 bytes. -/
theorem gifSig_take (bs : ImageBuffer) : gifSig (bs.take 12) = gifSig bs := by
  unfold gifSig
  rw [readByte_take bs 0 (by decide), readByte_take bs 1 (by decide),
    readByte_take bs 2 (by decide), readByte_take bs 3 (by decide)]

/-- The WebP signature only looks at the first 12 bytes. -/
theorem webpSig_take (bs : ImageBuffer) : webpSig (bs.take 12) = webpSig bs := by
  unfold webpSig
  rw [readByte_take bs 0 (by decide), readByte_take bs 1 (by decide),
    readByte_take bs 2 (by decide), readByte_take bs 3 (by decide),
    readByte_take bs 8 (by decide), readByte_take bs 9 (by decide),
    readByte_take bs 10 (by decide), readByte_take bs 11 (by decide)]

/-- The AVIF signature only looks at the first 12 bytes. -/
theorem avifSig_take (bs : ImageBuffer) : avifSig (bs.take 12) = avifSig bs := by
  unfold avifSig
  rw [readByte_take bs 4 (by decide), readByte_take bs 5 (by decide),
    readByte_take bs 6 (by decide), readByte_take bs 7 (by decide),
    readByte_take bs 8 (by decide), readByte_take bs 9 (by decide),
    readByte_take bs 10 (by decide), readByte_take bs 11 (by decide)]

/-- Claim C1, counterexample: a PNG-magic buffer truncated before the
dimension fields is detected as png, and its reader returns (0, 0) from
the zero-filled out-of-range reads, not the fallback (1920, 1080) the
claim promises for truncated structures. -/
theorem png_truncated_not_fallback :
    detectFormat pngTruncExample = "png" ∧
    getPngDimensions pngTruncExample = ⟨0, 0⟩ ∧
    getPngDimensions pngTruncExample ≠ ⟨1920, 1080⟩ := by decide

/-- Claim C1 (amended): the per-format readers never throw, but a
detected-format structure truncated before its fixed-offset dimension
fields yields the zero-filled read, not the fallback: any buffer of at
most 16 bytes gives PNG dimensions (0, 0); the fallback (1920, 1080)
only arises on the explicit no-SOF, unknown-chunk, and box-walk
exhaustion paths. -/
theorem png_truncated_reads_zero (bs : ImageBuffer) (h : bs.length ≤ 16) :
    getPngDimensions bs = ⟨0, 0⟩ := by
  unfold getPngDimensions be32
  rw [readByte_oob bs 16 (by omega), readByte_oob bs (16 + 1) (by omega),
    readByte_oob bs (16 + 2) (by omega), readByte_oob bs (16 + 3) (by omega),
    readByte_oob bs 20 (by omega), readByte_oob bs (20 + 1) (by omega),
    readByte_oob bs (20 + 2) (by omega), readByte_oob bs (20 + 3) (by omega)]
  decide

/-- Witness for png_truncated_reads_zero at a concrete 4-byte buffer. -/
theorem png_truncated_reads_zero_witness :
    getPngDimensions [0x89, 0x50, 0x4E, 0x47] = ⟨0, 0⟩ :=
  png_truncated_reads_zero [0x89, 0x50, 0x4E, 0x47] (by decide)

/-- On avifLoopExample the box walk is still running at offsets 0 and 16
after any number of iterations: each pass through offset 0 moves to 16
(box size 16) and each pass through 16 moves back to 0 (signed box size
-16). -/
theorem avifScan_loop_cycle (fuel : Nat) :
    avifScan avifLoopExample fuel 0 = none ∧
    avifScan avifLoopExample fuel 16 = none := by
  induction fuel with
  | zero => exact ⟨rfl, rfl⟩
  | succ n ih =>
    refine ⟨?_, ?_⟩
    · show avifScan avifLoopExample n 16 = none
      exact ih.2
    · show avifScan avifLoopExample n 0 = none
      exact ih.1

/-- Claim C2: the claim that every operation terminates within steps
bounded by the buffer length is false — on avifLoopExample, a 25-byte
buffer that detectFormat classifies as avif, the AVIF box walk (and
hence the public dimension dispatcher) is still running after any
number of iterations, because the signed 32-bit box size -16 at offset
16 moves the cursor backwards to offset 0. -/
theorem avif_box_walk_diverges (fuel : Nat) :
    avifScan avifLoopExample fuel 0 = none ∧
    getImageDimensions avifLoopExample fuel = none := by
  refine ⟨(avifScan_loop_cycle fuel).1, ?_⟩
  show avifScan avifLoopExample fuel 0 = none
  exact (avifScan_loop_cycle fuel).1

/-- Claim C3: detectFormat returns the tag of the first matching
signature rule, checked in the order and with the byte equations the
spec lists (detectFormatSpec), and its result depends only on the first
12 bytes of the buffer. -/
theorem detectFormat_first_match_prefix :
    (∀ b : ImageBuffer, detectFormat b = detectFormatSpec b) ∧
    (∀ b : ImageBuffer, detectFormat b = detectFormat (b.take 12)) := by
  constructor
  · intro b
    simp only [detectFormat]
    rw [jpegSig_take, pngSig_take, gifSig_take, webpSig_take, avifSig_take]
    rfl
  · intro b
    simp only [detectFormat, List.take_take, min_self]

/-- Claim C4: the claim that width and height are always non-negative is
false on the code — on a PNG-magic buffer whose width field starts with
the byte 0x80, the JavaScript signed 32-bit shift makes the computed
width -2147483648. -/
theorem png_width_can_be_negative :
    detectFormat pngHighBitExample = "png" ∧
    getImageDimensions pngHighBitExample 1 = some ⟨-2147483648, 1⟩ ∧
    (-2147483648 : Int) < 0 := by decide

/-- Claim C5, counterexample: a 3-byte buffer FF D8 FF is 12 bytes or
shorter yet detectFormat returns jpeg, not unknown — a short buffer
falls through only the signatures whose required bytes are missing. -/
theorem short_buffer_can_match :
    ([0xFF, 0xD8, 0xFF] : ImageBuffer).length ≤ 12 ∧
    detectFormat [0xFF, 0xD8, 0xFF] = "jpeg" ∧
    detectFormat [0xFF, 0xD8, 0xFF] ≠ "unknown" := by decide

/-- Claim C5 (amended): detectFormat never fails on short buffers —
out-of-range reads act as the byte value 0 — but a short buffer can
still match a signature that fits in its present bytes (the 3-byte
FF D8 FF buffer is jpeg); every buffer of length at most 2 does fall
through all five signatures to unknown. -/
theorem detectFormat_short_unknown (b : ImageBuffer) (h : b.length ≤ 2) :
    detectFormat b = "unknown" := by
  have hl : (b.take 12).length ≤ 2 := by
    simp only [List.length_take]
    omega
  have h2 : readByte (b.take 12) 2 = 0 := readByte_oob _ 2 (by omega)
  have h3 : readByte (b.take 12) 3 = 0 := readByte_oob _ 3 (by omega)
  have h4 : readByte (b.take 12) 4 = 0 := readByte_oob _ 4 (by omega)
  simp [detectFormat, jpegSig, pngSig, gifSig, webpSig, avifSig, h2, h3, h4]

/-- Witness for detectFormat_short_unknown at the empty buffer. -/
theorem detectFormat_short_unknown_witness : detectFormat [] = "unknown" :=
  detectFormat_short_unknown [] (by decide)

/-- Claim C6, counterexample: the signature checks are not mutually
exclusive — jpegAvifOverlapExample satisfies the JPEG and the AVIF
signature at the same time; detectFormat resolves the overlap by check
order, returning jpeg. -/
theorem jpeg_avif_sigs_overlap :
    jpegSig jpegAvifOverlapExample = true ∧
    avifSig jpegAvifOverlapExample = true ∧
    detectFormat jpegAvifOverlapExample = "jpeg" := by decide

/-- Claim C6 (amended): the JPEG, PNG, GIF and WebP signatures are
pairwise mutually exclusive (they fix different values of byte 0), and
the WebP and AVIF signatures exclude each other (byte 8); only the AVIF
signature can co-hold with JPEG, PNG or GIF, since it constrains no
byte below offset 4, and the check order resolves those overlaps. -/
theorem sigs_pairwise_exclusive_except_avif (b : ImageBuffer) :
    (jpegSig b && pngSig b) = false ∧ (jpegSig b && gifSig b) = false ∧
    (jpegSig b && webpSig b) = false ∧ (pngSig b && gifSig b) = false ∧
    (pngSig b && webpSig b) = false ∧ (gifSig b && webpSig b) = false ∧
    (webpSig b && avifSig b) = false := by
  refine ⟨?_, ?_, ?_, ?_, ?_, ?_, ?_⟩
  · cases h : readByte b 0 == 0xFF
    · simp [jpegSig, h]
    · have hx : readByte b 0 = 0xFF := eq_of_beq h
      simp [pngSig, hx]
  · cases h : readByte b 0 == 0xFF
    · simp [jpegSig, h]
    · have hx : readByte b 0 = 0xFF := eq_of_beq h
      simp [gifSig, hx]
  · cases h : readByte b 0 == 0xFF
    · simp [jpegSig, h]
    · have hx : readByte b 0 = 0xFF := eq_of_beq h
      simp [webpSig, hx]
  · cases h : readByte b 0 == 0x89
    · simp [pngSig, h]
    · have hx : readByte b 0 = 0x89 := eq_of_beq h
      simp [gifSig, hx]
  · cases h : readByte b 0 == 0x89
    · simp [pngSig, h]
    · have hx : readByte b 0 = 0x89 := eq_of_beq h
      simp [webpSig, hx]
  · cases h : readByte b 0 == 0x47
    · simp [gifSig, h]
    · have hx : readByte b 0 = 0x47 := eq_of_beq h
      simp [webpSig, hx]
  · cases h : readByte b 8 == 0x57
    · simp [webpSig, h]
    · have hx : readByte b 8 = 0x57 := eq_of_beq h
      simp [avifSig, hx]

/-- Claim C7: the JPEG marker scan skips the APP0 segment of
jpegSofExample by its declared length, lands on the SOF0 marker and
returns width 800, height 600 from the big-endian fields at marker+7
and marker+5; on jpegNoSofExample the scan exhausts the buffer and
returns the fallback (1920, 1080). -/
theorem jpeg_scan_examples :
    getJpegDimensions jpegSofExample = ⟨800, 600⟩ ∧
    getJpegDimensions jpegNoSofExample = ⟨1920, 1080⟩ ∧
    detectFormat jpegSofExample = "jpeg" := by decide

/-- Claim C8: the AVIF box walk descends through the nested meta (full
box header, 12 bytes), iprp and ipco (8 bytes each) containers of
avifIspeExample, finds the ispe box and returns its big-endian 32-bit
payload (1200, 800); with the ispe box replaced by an ordinary box the
walk skips it, runs off the end and returns the fallback (1920, 1080).
Both runs finish well within one fuel unit per buffer byte. -/
theorem avif_box_walk_examples :
    getAvifDimensions avifIspeExample 48 = some ⟨1200, 800⟩ ∧
    getAvifDimensions avifNoIspeExample 48 = some ⟨1920, 1080⟩ := by decide

/-- Claim C9: the WebP reader agrees everywhere with the dispatch rules
as the spec writes them (webpDimensionsSpec: VP8X, VP8L and VP8 chunk
tags at offset 12, then the fallback), and on the concrete VP8L buffer
with packed 14-bit fields for width 100 and height 50 it returns
exactly (100, 50). -/
theorem webp_dimensions_rules :
    (∀ bs : ImageBuffer, getWebpDimensions bs = webpDimensionsSpec bs) ∧
    getWebpDimensions vp8lExample = ⟨100, 50⟩ ∧
    detectFormat vp8lExample = "webp" := by
  refine ⟨?_, by decide, by decide⟩
  intro bs
  simp only [getWebpDimensions, webpDimensionsSpec, Prod.mk.injEq, Bool.and_eq_true,
    beq_iff_eq, and_assoc]
  split_ifs <;> rfl

/-- Claim C10: getExtension is idempotent — each known key maps to a
string that is itself a fixed point of the table, and an unknown key is
returned unchanged, so it is returned unchanged again. -/
theorem getExtension_idempotent (s : String) :
    getExtension (getExtension s) = getExtension s := by
  by_cases h1 : s = "jpeg"
  · subst h1; decide
  by_cases h2 : s = "jpg"
  · subst h2; decide
  by_cases h3 : s = "png"
  · subst h3; decide
  by_cases h4 : s = "gif"
  · subst h4; decide
  by_cases h5 : s = "webp"
  · subst h5; decide
  by_cases h6 : s = "avif"
  · subst h6; decide
  have hs : getExtension s = s := by
    unfold getExtension
    rw [if_neg h1, if_neg h2, if_neg h3, if_neg h4, if_neg h5, if_neg h6]
  rw [hs, hs]

end CattoPic
